import Mathlib

/-!
Shallow embedding of the lahari-media-engine storyboard pipeline:
the Scene/Shot data model (src/unnamed/part_002), the continuity
resolver and generation orchestrator (src/unnamed/part_001), the
service-layer request builders (src/services/geminiService.ts) and the
Storyboard UI adjacency helper (src/components/Storyboard.tsx).
JavaScript arrays become lists, `undefined`-able fields become Option,
and JS string truthiness is modelled explicitly (empty string is falsy).
-/

/-- GenerationStatus enum from src/unnamed/part_002. -/
inductive GenerationStatus
  | idle
  | loading
  | success
  | error
deriving DecidableEq, Repr

/-- VideoMode type from src/unnamed/part_002: montage or cinematic. -/
inductive VideoMode
  | montage
  | cinematic
deriving DecidableEq, Repr

/-- VideoShot record from src/unnamed/part_002.  Optional string fields
(imageUrl, videoUrl, error) are Option String; absent means undefined. -/
structure VideoShot where
  id : String
  duration : Int
  visualPrompt : String
  motionPrompt : String
  imageUrl : Option String
  imageStatus : GenerationStatus
  videoUrl : Option String
  videoStatus : GenerationStatus
  useNextAsEndFrame : Bool
  error : Option String
deriving DecidableEq, Repr

/-- VideoScene record from src/unnamed/part_002. -/
structure VideoScene where
  id : String
  sectionLabel : String
  startTime : String
  endTime : String
  lyrics : String
  narrativeDescription : String
  shots : List VideoShot
deriving DecidableEq, Repr

/-- JS truthiness of a possibly-undefined string: undefined and the empty
string are falsy, every other string is truthy. -/
def jsTruthy : Option String → Bool
  | none => false
  | some s => !s.isEmpty

/-- Models `url.split(',')[1]` from geminiService.ts: the segment after the
first comma of a data URL (the base64 payload). -/
def dataOf (url : String) : String :=
  ((url.splitOn ",").get? 1).getD ""

/-- The flattened global shot list: `state.scenes.forEach(s => allShots.push(...s.shots))`
in getPreviousShot / getNextShot (src/unnamed/part_001 lines 136-151). -/
def allShots (scenes : List VideoScene) : List VideoShot :=
  (scenes.map (fun sc => sc.shots)).flatten

/-- JS Array.prototype.findIndex: index of the first element satisfying the
predicate; none models the -1 result. -/
def jsFindIndex (p : VideoShot → Bool) : List VideoShot → Option Nat
  | [] => none
  | s :: rest => if p s then some 0 else (jsFindIndex p rest).map (· + 1)

/-- getPreviousShot from src/unnamed/part_001 lines 136-143: flatten the
timeline, find the shot by id, return the flat predecessor if the index is
positive, else null.  The sceneId argument is accepted and ignored, as in
the source. -/
def getPreviousShot (scenes : List VideoScene) (_sceneId shotId : String) :
    Option VideoShot :=
  let flat := allShots scenes
  match jsFindIndex (fun s => s.id == shotId) flat with
  | some idx => if idx > 0 then flat[idx - 1]? else none
  | none => none

/-- getNextShot from src/unnamed/part_001 lines 145-151: flatten the
timeline, find the shot by id, return the flat successor if one exists. -/
def getNextShot (scenes : List VideoScene) (_sceneId shotId : String) :
    Option VideoShot :=
  let flat := allShots scenes
  match jsFindIndex (fun s => s.id == shotId) flat with
  | some idx => if idx + 1 < flat.length then flat[idx + 1]? else none
  | none => none

/-- getRelativeShots from src/components/Storyboard.tsx lines 17-30:
per-scene index arithmetic.  Out-of-range array reads give undefined
(none); `scenes[sceneIdx-1].shots[len-1]` on an empty scene is getLast?,
and `scenes[sceneIdx+1]?.shots[0]` is head? of the next scene if any.
The source is only ever called with a valid sceneIdx; for an invalid one
this embedding reads an empty shot list. -/
def getRelativeShots (scenes : List VideoScene) (sceneIdx shotIdx : Nat) :
    Option VideoShot × Option VideoShot :=
  let shots := ((scenes[sceneIdx]?.map (fun sc => sc.shots)).getD [])
  let prevLocal : Option VideoShot :=
    if shotIdx == 0 then none else shots[shotIdx - 1]?
  let prevShot : Option VideoShot :=
    match prevLocal with
    | some p => some p
    | none =>
        if sceneIdx == 0 then none
        else ((scenes[sceneIdx - 1]?.map (fun sc => sc.shots)).getD []).getLast?
  let nextLocal : Option VideoShot := shots[shotIdx + 1]?
  let nextShot : Option VideoShot :=
    match nextLocal with
    | some n => some n
    | none => ((scenes[sceneIdx + 1]?.map (fun sc => sc.shots)).getD []).head?
  (prevShot, nextShot)

/-- Index of shot position (i, j) in the flattened global shot order:
the total number of shots in the scenes before scene i, plus j. -/
def flatIdx (scenes : List VideoScene) (i j : Nat) : Nat :=
  (((scenes.take i).map (fun sc => sc.shots.length)).sum) + j

lemma allShots_nil : allShots [] = [] := rfl

lemma allShots_cons (sc : VideoScene) (rest : List VideoScene) :
    allShots (sc :: rest) = sc.shots ++ allShots rest := rfl

lemma length_allShots (scenes : List VideoScene) :
    (allShots scenes).length = ((scenes.map (fun sc => sc.shots.length)).sum) := by
  induction scenes with
  | nil => rfl
  | cons sc rest ih => simp [allShots_cons, ih]

/-- The flat list element at flatIdx i j is the shot at position (i, j). -/
lemma get_allShots_flatIdx (scenes : List VideoScene) (i j : Nat)
    (sc : VideoScene) (s : VideoShot)
    (hsc : scenes[i]? = some sc) (hs : sc.shots[j]? = some s) :
    (allShots scenes)[flatIdx scenes i j]? = some s := by
  induction scenes generalizing i with
  | nil => simp at hsc
  | cons a rest ih =>
    cases i with
    | zero =>
      simp only [List.getElem?_cons_zero, Option.some.injEq] at hsc
      have hj : j < sc.shots.length := (List.getElem?_eq_some_iff.mp hs).1
      have hfi : flatIdx (a :: rest) 0 j = j := by simp [flatIdx]
      rw [allShots_cons, hfi, hsc, List.getElem?_append_left hj]
      exact hs
    | succ i' =>
      simp only [List.getElem?_cons_succ] at hsc
      have hk := ih i' hsc
      have hflat : flatIdx (a :: rest) (i' + 1) j =
          a.shots.length + flatIdx rest i' j := by
        simp [flatIdx, Nat.add_assoc]
      rw [allShots_cons, hflat,
        List.getElem?_append_right (Nat.le_add_right _ _),
        Nat.add_sub_cancel_left]
      exact hk

/-- With globally unique shot ids, findIndex on the id of the element at
index k returns k. -/
lemma jsFindIndex_of_nodup (l : List VideoShot) (k : Nat) (s : VideoShot)
    (hnd : (l.map (fun t => t.id)).Nodup) (hk : l[k]? = some s) :
    jsFindIndex (fun t => t.id == s.id) l = some k := by
  induction l generalizing k with
  | nil => simp at hk
  | cons a rest ih =>
    cases k with
    | zero =>
      simp only [List.getElem?_cons_zero, Option.some.injEq] at hk
      subst hk
      simp [jsFindIndex]
    | succ k' =>
      simp only [List.getElem?_cons_succ] at hk
      have hmem : s ∈ rest := List.getElem?_mem hk
      simp only [List.map_cons, List.nodup_cons, List.mem_map] at hnd
      have hne : a.id ≠ s.id := by
        intro h
        exact hnd.1 ⟨s, hmem, h.symm⟩
      have hfa : ((fun t => t.id == s.id) a) = false := by
        simp [hne]
      simp [jsFindIndex, hfa, ih k' hnd.2 hk]

/-- Core characterization: with globally unique shot ids, the resolver
functions return exactly the neighbours in the flattened list of the shot
found at flat index k. -/
lemma resolver_eq_flat_neighbours (scenes : List VideoScene) (anyId : String)
    (k : Nat) (s : VideoShot)
    (hnd : ((allShots scenes).map (fun t => t.id)).Nodup)
    (hk : (allShots scenes)[k]? = some s) :
    getNextShot scenes anyId s.id = (allShots scenes)[k + 1]? ∧
    getPreviousShot scenes anyId s.id =
      (if k = 0 then none else (allShots scenes)[k - 1]?) := by
  have hfi := jsFindIndex_of_nodup (allShots scenes) k s hnd hk
  constructor
  · rw [getNextShot]
    simp only [hfi]
    by_cases hlt : k + 1 < (allShots scenes).length
    · simp [hlt]
    · have : (allShots scenes)[k + 1]? = none :=
        List.getElem?_eq_none (Nat.le_of_not_lt hlt)
      simp [hlt, this]
  · rw [getPreviousShot]
    simp only [hfi]
    by_cases hz : k = 0
    · simp [hz]
    · have : k > 0 := Nat.pos_of_ne_zero hz
      simp [this, hz]

lemma sum_take_succ_of_getElem? (scenes : List VideoScene) (m : Nat)
    (sc : VideoScene) (h : scenes[m]? = some sc) :
    ((scenes.take (m + 1)).map (fun x => x.shots.length)).sum
      = ((scenes.take m).map (fun x => x.shots.length)).sum + sc.shots.length := by
  rw [List.take_succ, h]
  simp

lemma flatIdx_zero_right (scenes : List VideoScene) (i j : Nat) :
    flatIdx scenes i j = flatIdx scenes i 0 + j := by
  simp [flatIdx]

lemma flatIdx_succ_scene (scenes : List VideoScene) (i : Nat) (sc : VideoScene)
    (h : scenes[i]? = some sc) :
    flatIdx scenes (i + 1) 0 = flatIdx scenes i 0 + sc.shots.length := by
  unfold flatIdx
  rw [sum_take_succ_of_getElem? scenes i sc h]
  omega

/-- Convenience fixture: a fresh idle shot with the given id. -/
def mkShot (sid : String) : VideoShot :=
  { id := sid, duration := 2, visualPrompt := "vp", motionPrompt := "mp",
    imageUrl := none, imageStatus := GenerationStatus.idle,
    videoUrl := none, videoStatus := GenerationStatus.idle,
    useNextAsEndFrame := false, error := none }

/-- Convenience fixture: a scene with the given id and shots. -/
def mkScene (scid : String) (shots : List VideoShot) : VideoScene :=
  { id := scid, sectionLabel := "Verse", startTime := "00:00",
    endTime := "00:10", lyrics := "ly", narrativeDescription := "nd",
    shots := shots }

/-- C1 -- For every timeline with at least 2 scenes each containing at
least 1 shot (ids globally unique, per the data model), and every shot
position (i, j), getNextShot returns flatten(timeline)[flatIdx(i,j)+1]
(none when out of range) and getPreviousShot returns
flatten(timeline)[flatIdx(i,j)-1] (none when (i,j) is the first shot). -/
theorem c1_resolver_consistent_with_flatten
    (scenes : List VideoScene) (sceneId : String) (i j : Nat)
    (_hscenes : 2 ≤ scenes.length)
    (_hne : ∀ sc ∈ scenes, sc.shots ≠ [])
    (hnd : ((allShots scenes).map (fun t => t.id)).Nodup)
    (sc : VideoScene) (s : VideoShot)
    (hsc : scenes[i]? = some sc) (hs : sc.shots[j]? = some s) :
    getNextShot scenes sceneId s.id = (allShots scenes)[flatIdx scenes i j + 1]? ∧
    getPreviousShot scenes sceneId s.id =
      (if flatIdx scenes i j = 0 then none
       else (allShots scenes)[flatIdx scenes i j - 1]?) :=
  resolver_eq_flat_neighbours scenes sceneId (flatIdx scenes i j) s hnd
    (get_allShots_flatIdx scenes i j sc s hsc hs)

def c1S1 : VideoShot := mkShot "s1"
def c1S2 : VideoShot := mkShot "s2"
def c1S3 : VideoShot := mkShot "s3"
def c1Scenes : List VideoScene :=
  [mkScene "scA" [c1S1, c1S2], mkScene "scB" [c1S3]]

/-- Witness for C1 at a concrete two-scene timeline, position (1, 0). -/
theorem c1_witness :
    getNextShot c1Scenes "scB" c1S3.id = (allShots c1Scenes)[flatIdx c1Scenes 1 0 + 1]? ∧
    getPreviousShot c1Scenes "scB" c1S3.id =
      (if flatIdx c1Scenes 1 0 = 0 then none
       else (allShots c1Scenes)[flatIdx c1Scenes 1 0 - 1]?) :=
  c1_resolver_consistent_with_flatten c1Scenes "scB" 1 0 (by decide)
    (by decide) (by decide) (mkScene "scB" [c1S3]) c1S3 (by decide) (by decide)

def c2S1 : VideoShot := mkShot "t1"
def c2S2 : VideoShot := mkShot "t2"

/-- A timeline with an empty scene between two non-empty scenes. -/
def c2Scenes : List VideoScene :=
  [mkScene "cA" [c2S1], mkScene "cB" [], mkScene "cC" [c2S2]]

/-- C2 counterexample -- on a timeline with an empty scene between two
non-empty scenes, the orchestrator resolver does NOT break the chain:
the last shot before the empty scene has a successor (the first shot
after it) and vice versa, contradicting the claim. -/
theorem c2_counterexample :
    ¬ (getNextShot c2Scenes "cA" c2S1.id = none ∧
       getPreviousShot c2Scenes "cC" c2S2.id = none) ∧
    getNextShot c2Scenes "cA" c2S1.id = some c2S2 ∧
    getPreviousShot c2Scenes "cC" c2S2.id = some c2S1 := by
  decide

/-- C2 amended -- around an empty scene between two non-empty scenes
(unique shot ids), the two resolvers disagree: the Storyboard UI helper
getRelativeShots breaks the chain at the empty-scene boundary (no
successor for the last shot before it, no predecessor for the first shot
after it), while the orchestrator functions getNextShot/getPreviousShot,
computed over the flattened shot list, skip the empty scene transitively
and connect the two shots. -/
theorem c2_amended_empty_scene_boundary
    (scenes : List VideoScene) (anyId : String) (i : Nat)
    (scA scE scB : VideoScene)
    (hA : scenes[i]? = some scA) (hE : scenes[i + 1]? = some scE)
    (hB : scenes[i + 2]? = some scB)
    (hEempty : scE.shots = [])
    (hnd : ((allShots scenes).map (fun t => t.id)).Nodup)
    (sLast sHead : VideoShot)
    (hLast : scA.shots.getLast? = some sLast)
    (hHead : scB.shots.head? = some sHead) :
    getNextShot scenes anyId sLast.id = some sHead ∧
    getPreviousShot scenes anyId sHead.id = some sLast ∧
    (getRelativeShots scenes i (scA.shots.length - 1)).2 = none ∧
    (getRelativeShots scenes (i + 2) 0).1 = none := by
  have hAne : scA.shots ≠ [] := by
    intro h
    rw [h] at hLast
    simp at hLast
  have hlenA : 1 ≤ scA.shots.length := List.length_pos.mpr hAne
  have hsLast : scA.shots[scA.shots.length - 1]? = some sLast := by
    rw [← List.getLast?_eq_getElem?]
    exact hLast
  have hsHead : scB.shots[0]? = some sHead := by
    rw [← List.head?_eq_getElem?]
    exact hHead
  have hflatA : (allShots scenes)[flatIdx scenes i (scA.shots.length - 1)]? = some sLast :=
    get_allShots_flatIdx scenes i _ scA sLast hA hsLast
  have hkB : flatIdx scenes (i + 2) 0 = flatIdx scenes i (scA.shots.length - 1) + 1 := by
    have h1 := flatIdx_succ_scene scenes i scA hA
    have h2 := flatIdx_succ_scene scenes (i + 1) scE hE
    have h3 := flatIdx_zero_right scenes i (scA.shots.length - 1)
    rw [hEempty] at h2
    simp at h2
    rw [show i + 1 + 1 = i + 2 from rfl] at h2
    omega
  have hflatB : (allShots scenes)[flatIdx scenes i (scA.shots.length - 1) + 1]? = some sHead := by
    rw [← hkB]
    exact get_allShots_flatIdx scenes (i + 2) 0 scB sHead hB hsHead
  obtain ⟨hnextA, _⟩ := resolver_eq_flat_neighbours scenes anyId
    (flatIdx scenes i (scA.shots.length - 1)) sLast hnd hflatA
  obtain ⟨_, hprevB⟩ := resolver_eq_flat_neighbours scenes anyId
    (flatIdx scenes i (scA.shots.length - 1) + 1) sHead hnd hflatB
  refine ⟨?_, ?_, ?_, ?_⟩
  · rw [hnextA]
    exact hflatB
  · rw [hprevB]
    simpa using hflatA
  · have hlen : scA.shots.length - 1 + 1 = scA.shots.length := by omega
    have hnone : scA.shots[scA.shots.length]? = none :=
      List.getElem?_eq_none (Nat.le_refl _)
    simp [getRelativeShots, hA, hE, hEempty, hlen, hnone]
  · have h21 : i + 2 - 1 = i + 1 := by omega
    simp [getRelativeShots, h21, hE, hEempty]

/-- Witness for the amended C2 at the concrete three-scene timeline. -/
theorem c2_amended_witness :
    getNextShot c2Scenes "w" c2S1.id = some c2S2 ∧
    getPreviousShot c2Scenes "w" c2S2.id = some c2S1 ∧
    (getRelativeShots c2Scenes 0 ((mkScene "cA" [c2S1]).shots.length - 1)).2 = none ∧
    (getRelativeShots c2Scenes (0 + 2) 0).1 = none :=
  c2_amended_empty_scene_boundary c2Scenes "w" 0 (mkScene "cA" [c2S1])
    (mkScene "cB" []) (mkScene "cC" [c2S2]) (by decide) (by decide) (by decide)
    (by decide) (by decide) c2S1 c2S2 (by decide) (by decide)

/-- On a timeline whose scenes are all non-empty, the UI helper's
predecessor equals the flat-order predecessor of position (i, j). -/
lemma rel_prev_eq_flat (scenes : List VideoScene) (i j : Nat)
    (hne : ∀ sc ∈ scenes, sc.shots ≠ [])
    (sc : VideoScene) (hsc : scenes[i]? = some sc) (hj : j < sc.shots.length) :
    (getRelativeShots scenes i j).1 =
      (if flatIdx scenes i j = 0 then none
       else (allShots scenes)[flatIdx scenes i j - 1]?) := by
  cases j with
  | succ j' =>
    obtain ⟨p, hp⟩ : ∃ p, sc.shots[j']? = some p := by
      have : j' < sc.shots.length := by omega
      exact ⟨sc.shots[j'], (List.getElem?_eq_some_iff).mpr ⟨this, rfl⟩⟩
    have hz : flatIdx scenes i (j' + 1) ≠ 0 := by
      unfold flatIdx
      omega
    have hm1 : flatIdx scenes i (j' + 1) - 1 = flatIdx scenes i j' := by
      unfold flatIdx
      omega
    rw [if_neg hz, hm1]
    rw [get_allShots_flatIdx scenes i j' sc p hsc hp]
    simp [getRelativeShots, hsc, hp]
  | zero =>
    cases i with
    | zero =>
      have hz : flatIdx scenes 0 0 = 0 := by simp [flatIdx]
      rw [if_pos hz]
      simp [getRelativeShots]
    | succ m =>
      obtain ⟨sc', hsc'⟩ : ∃ sc', scenes[m]? = some sc' := by
        have hmlt : m < scenes.length := by
          have h1 : m + 1 < scenes.length := (List.getElem?_eq_some_iff.mp hsc).1
          omega
        exact ⟨scenes[m], (List.getElem?_eq_some_iff).mpr ⟨hmlt, rfl⟩⟩
      have hne' : sc'.shots ≠ [] := hne sc' (List.getElem?_mem hsc')
      have hlen' : 1 ≤ sc'.shots.length := List.length_pos.mpr hne'
      obtain ⟨p, hp⟩ : ∃ p, sc'.shots[sc'.shots.length - 1]? = some p := by
        have : sc'.shots.length - 1 < sc'.shots.length := by omega
        exact ⟨sc'.shots[sc'.shots.length - 1],
          (List.getElem?_eq_some_iff).mpr ⟨this, rfl⟩⟩
      have hk : flatIdx scenes (m + 1) 0 = flatIdx scenes m 0 + sc'.shots.length :=
        flatIdx_succ_scene scenes m sc' hsc'
      have hz : flatIdx scenes (m + 1) 0 ≠ 0 := by omega
      have hm1 : flatIdx scenes (m + 1) 0 - 1 = flatIdx scenes m (sc'.shots.length - 1) := by
        rw [hk, flatIdx_zero_right scenes m (sc'.shots.length - 1)]
        omega
      rw [if_neg hz, hm1]
      rw [get_allShots_flatIdx scenes m (sc'.shots.length - 1) sc' p hsc' hp]
      have hlast : sc'.shots.getLast? = some p := by
        rw [List.getLast?_eq_getElem?]
        exact hp
      simp [getRelativeShots, hsc', hlast]

/-- On a timeline whose scenes are all non-empty, the UI helper's
successor equals the flat-order successor of position (i, j). -/
lemma rel_next_eq_flat (scenes : List VideoScene) (i j : Nat)
    (hne : ∀ sc ∈ scenes, sc.shots ≠ [])
    (sc : VideoScene) (hsc : scenes[i]? = some sc) (hj : j < sc.shots.length) :
    (getRelativeShots scenes i j).2 = (allShots scenes)[flatIdx scenes i j + 1]? := by
  by_cases hjn : j + 1 < sc.shots.length
  · obtain ⟨n, hn⟩ : ∃ n, sc.shots[j + 1]? = some n :=
      ⟨sc.shots[j + 1], (List.getElem?_eq_some_iff).mpr ⟨hjn, rfl⟩⟩
    have hp1 : flatIdx scenes i j + 1 = flatIdx scenes i (j + 1) := by
      unfold flatIdx
      omega
    rw [hp1, get_allShots_flatIdx scenes i (j + 1) sc n hsc hn]
    simp [getRelativeShots, hsc, hn]
  · have hjlen : j + 1 = sc.shots.length := by omega
    have hnl : sc.shots[j + 1]? = none := List.getElem?_eq_none (by omega)
    have hk1 : flatIdx scenes i j + 1 = flatIdx scenes (i + 1) 0 := by
      rw [flatIdx_succ_scene scenes i sc hsc, flatIdx_zero_right scenes i j]
      omega
    by_cases hnext : i + 1 < scenes.length
    · obtain ⟨sc2, hsc2⟩ : ∃ sc2, scenes[i + 1]? = some sc2 :=
        ⟨scenes[i + 1], (List.getElem?_eq_some_iff).mpr ⟨hnext, rfl⟩⟩
      have hne2 : sc2.shots ≠ [] := hne sc2 (List.getElem?_mem hsc2)
      have hlen2 : 1 ≤ sc2.shots.length := List.length_pos.mpr hne2
      obtain ⟨h0, hh0⟩ : ∃ h0, sc2.shots[0]? = some h0 :=
        ⟨sc2.shots[0], (List.getElem?_eq_some_iff).mpr ⟨by omega, rfl⟩⟩
      rw [hk1, get_allShots_flatIdx scenes (i + 1) 0 sc2 h0 hsc2 hh0]
      have hhead : sc2.shots.head? = some h0 := by
        rw [List.head?_eq_getElem?]
        exact hh0
      simp [getRelativeShots, hsc, hsc2, hnl, hhead]
    · have hsc2 : scenes[i + 1]? = none := List.getElem?_eq_none (by omega)
      have hilen : i + 1 = scenes.length := by
        have h1 : i < scenes.length := (List.getElem?_eq_some_iff.mp hsc).1
        omega
      have htot : flatIdx scenes (i + 1) 0 = (allShots scenes).length := by
        unfold flatIdx
        rw [length_allShots, hilen, List.take_length]
        omega
      have hnone : (allShots scenes)[flatIdx scenes i j + 1]? = none := by
        rw [hk1]
        exact List.getElem?_eq_none (by omega)
      rw [hnone]
      simp [getRelativeShots, hsc, hsc2, hnl]

/-- C10 -- on a timeline where every scene has at least one shot and shot
ids are globally unique, the Storyboard UI adjacency helper
getRelativeShots (per-scene index arithmetic) agrees with the
orchestrator resolver getPreviousShot / getNextShot (flattened list
search) at every shot position. -/
theorem c10_ui_agrees_with_resolver
    (scenes : List VideoScene) (anyId : String) (i j : Nat)
    (hne : ∀ sc ∈ scenes, sc.shots ≠ [])
    (hnd : ((allShots scenes).map (fun t => t.id)).Nodup)
    (sc : VideoScene) (s : VideoShot)
    (hsc : scenes[i]? = some sc) (hs : sc.shots[j]? = some s) :
    getRelativeShots scenes i j =
      (getPreviousShot scenes anyId s.id, getNextShot scenes anyId s.id) := by
  have hj : j < sc.shots.length := (List.getElem?_eq_some_iff.mp hs).1
  obtain ⟨hnext, hprev⟩ := resolver_eq_flat_neighbours scenes anyId
    (flatIdx scenes i j) s hnd (get_allShots_flatIdx scenes i j sc s hsc hs)
  have h1 := rel_prev_eq_flat scenes i j hne sc hsc hj
  have h2 := rel_next_eq_flat scenes i j hne sc hsc hj
  apply Prod.ext
  · rw [h1, hprev]
  · rw [h2, hnext]

/-- Witness for C10 at the concrete two-scene timeline, position (0, 1). -/
theorem c10_witness :
    getRelativeShots c1Scenes 0 1 =
      (getPreviousShot c1Scenes "w" c1S2.id, getNextShot c1Scenes "w" c1S2.id) :=
  c10_ui_agrees_with_resolver c1Scenes "w" 0 1 (by decide) (by decide)
    (mkScene "scA" [c1S1, c1S2]) c1S2 (by decide) (by decide)

/-- One part of an image-generation request: an inlineData reference image
(base64 payload) or a text instruction (geminiService.ts generateShotImage). -/
inductive ReqPart
  | image (data : String)
  | txt (s : String)
deriving DecidableEq, Repr

/-- The inlineData parts pushed for one optional image url in
generateShotImage: `if (url) parts.push({ inlineData: { data: url.split(',')[1] } })`. -/
def refOf : Option String → List String
  | none => []
  | some u => if u.isEmpty then [] else [dataOf u]

/-- The text prompt of generateShotImage (geminiService.ts lines 312-333),
with the template whitespace compressed; the continuity instruction line is
present exactly when a previous-shot image url was supplied. -/
def imageTextPrompt (characterSheet deity visualPrompt narrative
    styleDescription mood : String) (hasPrev : Bool) : String :=
  "Create a cinematic film still. SCENE CONTEXT: - Subject: " ++ characterSheet
    ++ " (" ++ deity ++ "). - Action/Moment: " ++ visualPrompt
    ++ ". - Narrative Meaning: " ++ narrative
    ++ ". AESTHETICS: - Art Style: " ++ styleDescription
    ++ ". - Mood/Atmosphere: " ++ mood ++ "."
    ++ (if hasPrev then
          " - CONTINUITY: This is the NEXT FRAME after the Previous Shot image provided. Match the lighting and environment exactly."
        else "")
    ++ " Make it look like a high-budget movie production. No text, no watermark."

/-- The ordered parts list assembled by generateShotImage: hero reference
first (if any), then the previous-shot reference (if any), then the text
prompt. -/
def generateShotImageParts (heroImage previousShotImageUrl : Option String)
    (textPrompt : String) : List ReqPart :=
  (refOf heroImage).map ReqPart.image
    ++ (refOf previousShotImageUrl).map ReqPart.image
    ++ [ReqPart.txt textPrompt]

/-- Predecessor-image selection in handleGenerateImage (src/unnamed/part_001
lines 164-170): only in cinematic mode, and only when the previous shot
exists and its imageUrl is truthy. -/
def selectPrevShotUrl (videoMode : VideoMode) (prevShot : Option VideoShot) :
    Option String :=
  match videoMode, prevShot with
  | VideoMode.cinematic, some p => if jsTruthy p.imageUrl then p.imageUrl else none
  | _, _ => none

/-- The reference-image payloads of the request handleGenerateImage builds
for the shot with the given id: hero image plus the predecessor image
selected by selectPrevShotUrl over the global resolver. -/
def imageRequestRefs (scenes : List VideoScene) (videoMode : VideoMode)
    (heroImage : Option String) (sceneId shotId : String) : List String :=
  refOf heroImage
    ++ refOf (selectPrevShotUrl videoMode (getPreviousShot scenes sceneId shotId))

lemma imageRequestRefs_parts (scenes : List VideoScene) (videoMode : VideoMode)
    (heroImage : Option String) (sceneId shotId : String) (t : String) :
    generateShotImageParts heroImage
        (selectPrevShotUrl videoMode (getPreviousShot scenes sceneId shotId)) t
      = (imageRequestRefs scenes videoMode heroImage sceneId shotId).map ReqPart.image
          ++ [ReqPart.txt t] := by
  simp [generateShotImageParts, imageRequestRefs]

/-- C3 -- a montage-mode image request never carries a predecessor
reference (it equals a request built with no predecessor url, whatever the
predecessor state is), while a cinematic-mode request for a shot whose
global predecessor has a successful image (per the data-model invariant,
a set non-empty imageUrl) always carries that image as a reference, placed
right after the hero reference (if one is selected). -/
theorem c3_predecessor_reference_policy
    (scenes : List VideoScene) (heroImage : Option String)
    (sceneId shotId : String) :
    imageRequestRefs scenes VideoMode.montage heroImage sceneId shotId
      = refOf heroImage ∧
    (∀ p u, getPreviousShot scenes sceneId shotId = some p →
      p.imageStatus = GenerationStatus.success →
      p.imageUrl = some u → ¬u.isEmpty →
      imageRequestRefs scenes VideoMode.cinematic heroImage sceneId shotId
        = refOf heroImage ++ [dataOf u]) := by
  constructor
  · simp [imageRequestRefs, selectPrevShotUrl, refOf]
  · intro p u hp _hstatus hurl hne
    have htr : jsTruthy p.imageUrl = true := by
      simp [jsTruthy, hurl, hne]
    have hune : u ≠ "" := by
      intro h
      rw [h] at hne
      exact hne (by decide)
    simp [imageRequestRefs, selectPrevShotUrl, hp, htr, hurl, refOf,
      jsTruthy, hne, hune]

def c3Prev : VideoShot :=
  { mkShot "p1" with imageUrl := some "data:image/png;base64,PREV",
                     imageStatus := GenerationStatus.success }
def c3Cur : VideoShot := mkShot "p2"
def c3Scenes : List VideoScene := [mkScene "scP" [c3Prev, c3Cur]]

/-- Witness for C3 on a one-scene timeline whose first shot has a
successful image and precedes the shot being generated. -/
theorem c3_witness :
    imageRequestRefs c3Scenes VideoMode.montage (some "data:image/png;base64,HERO") "scP" "p2"
      = refOf (some "data:image/png;base64,HERO") ∧
    imageRequestRefs c3Scenes VideoMode.cinematic (some "data:image/png;base64,HERO") "scP" "p2"
      = refOf (some "data:image/png;base64,HERO") ++ [dataOf "data:image/png;base64,PREV"] := by
  have h := c3_predecessor_reference_policy c3Scenes
    (some "data:image/png;base64,HERO") "scP" "p2"
  refine ⟨h.1, h.2 c3Prev "data:image/png;base64,PREV" (by decide) (by decide)
    (by decide) (by decide)⟩

/-- The video-generation request of generateShotVideo (geminiService.ts
lines 357-387): motion prompt (with the generic default), the seed image
payload, the fixed config fields, and the optional lastFrame payload,
attached only when `shot.useNextAsEndFrame && nextShotImageBase64`. -/
structure VideoRequest where
  prompt : String
  imageBytes : String
  numberOfVideos : Nat
  resolution : String
  aspectRatio : String
  lastFrame : Option String
deriving DecidableEq, Repr

def generateShotVideoReq (shot : VideoShot) (imageBase64 : String)
    (nextShotImageBase64 : Option String) : VideoRequest :=
  { prompt := if shot.motionPrompt.isEmpty then "Cinematic camera movement"
              else shot.motionPrompt,
    imageBytes := dataOf imageBase64,
    numberOfVideos := 1,
    resolution := "720p",
    aspectRatio := "16:9",
    lastFrame :=
      if shot.useNextAsEndFrame && jsTruthy nextShotImageBase64 then
        some (dataOf (nextShotImageBase64.getD ""))
      else none }

/-- Successor-image selection in handleGenerateVideo (src/unnamed/part_001
lines 197-204): only when the flag is set and the global successor exists
with a truthy imageUrl. -/
def selectNextImage (scenes : List VideoScene) (sceneId : String)
    (shot : VideoShot) : Option String :=
  if shot.useNextAsEndFrame then
    match getNextShot scenes sceneId shot.id with
    | some n => if jsTruthy n.imageUrl then n.imageUrl else none
    | none => none
  else none

/-- handleGenerateVideo dispatch (src/unnamed/part_001 lines 186-207):
refuses when the shot is missing or has no truthy imageUrl, otherwise
issues the generateShotVideo request. -/
def dispatchVideoRequest (scenes : List VideoScene) (sceneId : String)
    (shot : Option VideoShot) : Option VideoRequest :=
  match shot with
  | none => none
  | some s =>
      match s.imageUrl with
      | none => none
      | some url =>
          if url.isEmpty then none
          else some (generateShotVideoReq s url (selectNextImage scenes sceneId s))

/-- C4 -- whenever video generation is dispatched for a shot (it has an
imageUrl): with useNextAsEndFrame set and a global successor holding a
non-empty imageUrl, that image is the lastFrame of the request; with the
flag set but no successor image available, the request is still issued,
just without a lastFrame; with the flag unset, no lastFrame is attached. -/
theorem c4_end_frame_continuity
    (scenes : List VideoScene) (sceneId : String) (s : VideoShot)
    (url : String) (hurl : s.imageUrl = some url) (hne : ¬url.isEmpty) :
    ∃ req, dispatchVideoRequest scenes sceneId (some s) = some req ∧
      (∀ n nurl, s.useNextAsEndFrame = true →
        getNextShot scenes sceneId s.id = some n →
        n.imageUrl = some nurl → ¬nurl.isEmpty →
        req.lastFrame = some (dataOf nurl)) ∧
      (s.useNextAsEndFrame = true →
        (∀ n, getNextShot scenes sceneId s.id = some n →
          jsTruthy n.imageUrl = false) →
        req.lastFrame = none) ∧
      (s.useNextAsEndFrame = false → req.lastFrame = none) := by
  refine ⟨generateShotVideoReq s url (selectNextImage scenes sceneId s), ?_, ?_, ?_, ?_⟩
  · simp [dispatchVideoRequest, hurl, hne]
  · intro n nurl hflag hnext hnurl hnne
    have hjt : jsTruthy (some nurl) = true := by
      cases hb : nurl.isEmpty with
      | true => exact absurd hb hnne
      | false => simp [jsTruthy, hb]
    have hsel : selectNextImage scenes sceneId s = some nurl := by
      simp [selectNextImage, hflag, hnext, hnurl, hjt]
    simp [generateShotVideoReq, hsel, hflag, hjt]
  · intro hflag hno
    have hsel : selectNextImage scenes sceneId s = none := by
      unfold selectNextImage
      rw [hflag]
      simp only [if_true]
      cases hnx : getNextShot scenes sceneId s.id with
      | none => rfl
      | some n => simp [hno n hnx]
    simp [generateShotVideoReq, hsel, jsTruthy]
  · intro hflag
    simp [generateShotVideoReq, hflag]

def c4Next : VideoShot :=
  { mkShot "v2" with imageUrl := some "data:image/png;base64,NEXT",
                     imageStatus := GenerationStatus.success }
def c4Cur : VideoShot :=
  { mkShot "v1" with imageUrl := some "data:image/png;base64,CUR",
                     imageStatus := GenerationStatus.success,
                     useNextAsEndFrame := true }
def c4CurOff : VideoShot :=
  { mkShot "v3" with imageUrl := some "data:image/png;base64,CUR3",
                     imageStatus := GenerationStatus.success,
                     useNextAsEndFrame := true }
def c4Scenes : List VideoScene := [mkScene "scV" [c4Cur, c4Next, c4CurOff]]

/-- Witness for C4: the morphing case (successor image present) and the
degraded case (flag set, successor image missing) on a concrete timeline. -/
theorem c4_witness :
    (∃ req, dispatchVideoRequest c4Scenes "scV" (some c4Cur) = some req ∧
      req.lastFrame = some (dataOf "data:image/png;base64,NEXT")) ∧
    (∃ req, dispatchVideoRequest c4Scenes "scV" (some c4CurOff) = some req ∧
      req.lastFrame = none) := by
  constructor
  · obtain ⟨req, hdisp, hmorph, _, _⟩ :=
      c4_end_frame_continuity c4Scenes "scV" c4Cur "data:image/png;base64,CUR"
        (by decide) (by decide)
    exact ⟨req, hdisp, hmorph c4Next "data:image/png;base64,NEXT" (by decide)
      (by decide) (by decide) (by decide)⟩
  · obtain ⟨req, hdisp, _, hdeg, _⟩ :=
      c4_end_frame_continuity c4Scenes "scV" c4CurOff "data:image/png;base64,CUR3"
        (by decide) (by decide)
    refine ⟨req, hdisp, hdeg (by decide) ?_⟩
    intro n hnx
    have : getNextShot c4Scenes "scV" c4CurOff.id = none := by decide
    rw [this] at hnx
    cases hnx

/-- Upstream shot record of the planning response (geminiService.ts
responseSchema lines 244-252): id optional, plus duration and prompts. -/
structure RawShot where
  id : Option String
  duration : Int
  visualPrompt : String
  motionPrompt : String
deriving DecidableEq, Repr

/-- Upstream scene record of the planning response (geminiService.ts
responseSchema lines 233-254). -/
structure RawScene where
  id : Option String
  sectionLabel : String
  startTime : String
  endTime : String
  lyrics : String
  narrativeDescription : String
  shots : List RawShot
deriving DecidableEq, Repr

/-- JS `upstream.id || fresh`: keep a truthy upstream id, otherwise take
the freshly generated one (Math.random-based in the source; modelled as a
supplied oracle value). -/
def jsOrFresh (o : Option String) (fresh : String) : String :=
  match o with
  | some s => if s.isEmpty then fresh else s
  | none => fresh

/-- Shot initialization inside planScenes (geminiService.ts lines 268-274):
spread the upstream fields, fill the id, set both statuses Idle, and
default useNextAsEndFrame from the video mode. -/
def initShotFromRaw (mode : VideoMode) (fresh : String) (r : RawShot) :
    VideoShot :=
  { id := jsOrFresh r.id fresh,
    duration := r.duration,
    visualPrompt := r.visualPrompt,
    motionPrompt := r.motionPrompt,
    imageUrl := none,
    imageStatus := GenerationStatus.idle,
    videoUrl := none,
    videoStatus := GenerationStatus.idle,
    useNextAsEndFrame := decide (mode = VideoMode.cinematic),
    error := none }

def initShots (mode : VideoMode) (freshShot : Nat → String) :
    Nat → List RawShot → List VideoShot
  | _, [] => []
  | j, r :: rest => initShotFromRaw mode (freshShot j) r
      :: initShots mode freshShot (j + 1) rest

/-- Scene initialization inside planScenes (geminiService.ts lines 265-275). -/
def initSceneFromRaw (mode : VideoMode) (fresh : String)
    (freshShot : Nat → String) (s : RawScene) : VideoScene :=
  { id := jsOrFresh s.id fresh,
    sectionLabel := s.sectionLabel,
    startTime := s.startTime,
    endTime := s.endTime,
    lyrics := s.lyrics,
    narrativeDescription := s.narrativeDescription,
    shots := initShots mode freshShot 0 s.shots }

def planScenesAux (mode : VideoMode) (freshScene : Nat → String)
    (freshShot : Nat → Nat → String) :
    Nat → List RawScene → List VideoScene
  | _, [] => []
  | i, s :: rest => initSceneFromRaw mode (freshScene i) (freshShot i) s
      :: planScenesAux mode freshScene freshShot (i + 1) rest

/-- planScenes (geminiService.ts lines 262-276): map the upstream scene
list to the fully initialized scene collection.  The Math.random id
generator is modelled by the freshScene / freshShot oracles. -/
def planScenes (mode : VideoMode) (freshScene : Nat → String)
    (freshShot : Nat → Nat → String) (data : List RawScene) :
    List VideoScene :=
  planScenesAux mode freshScene freshShot 0 data

lemma initShots_getElem? (mode : VideoMode) (freshShot : Nat → String) :
    ∀ (base j : Nat) (rs : List RawShot) (r : RawShot),
      rs[j]? = some r →
      (initShots mode freshShot base rs)[j]? =
        some (initShotFromRaw mode (freshShot (base + j)) r) := by
  intro base j rs
  induction rs generalizing base j with
  | nil => intro r hr; simp at hr
  | cons a rest ih =>
    intro r hr
    cases j with
    | zero =>
      simp only [List.getElem?_cons_zero, Option.some.injEq] at hr
      simp [initShots, hr]
    | succ j' =>
      simp only [List.getElem?_cons_succ] at hr
      have := ih (base + 1) j' r hr
      simpa [initShots, Nat.add_assoc, Nat.add_comm 1 j'] using this

lemma planScenesAux_getElem? (mode : VideoMode) (freshScene : Nat → String)
    (freshShot : Nat → Nat → String) :
    ∀ (base i : Nat) (data : List RawScene) (raw : RawScene),
      data[i]? = some raw →
      (planScenesAux mode freshScene freshShot base data)[i]? =
        some (initSceneFromRaw mode (freshScene (base + i)) (freshShot (base + i)) raw) := by
  intro base i data
  induction data generalizing base i with
  | nil => intro raw hr; simp at hr
  | cons a rest ih =>
    intro raw hr
    cases i with
    | zero =>
      simp only [List.getElem?_cons_zero, Option.some.injEq] at hr
      simp [planScenesAux, hr]
    | succ i' =>
      simp only [List.getElem?_cons_succ] at hr
      have := ih (base + 1) i' raw hr
      simpa [planScenesAux, Nat.add_assoc, Nat.add_comm 1 i'] using this

lemma initShots_mem (mode : VideoMode) (freshShot : Nat → String) :
    ∀ (j : Nat) (rs : List RawShot) (s : VideoShot),
      s ∈ initShots mode freshShot j rs →
      ∃ j' r, s = initShotFromRaw mode (freshShot j') r := by
  intro j rs
  induction rs generalizing j with
  | nil => intro s hs; simp [initShots] at hs
  | cons a rest ih =>
    intro s hs
    simp only [initShots, List.mem_cons] at hs
    rcases hs with h | h
    · exact ⟨j, a, h⟩
    · exact ih (j + 1) s h

lemma planScenesAux_mem (mode : VideoMode) (freshScene : Nat → String)
    (freshShot : Nat → Nat → String) :
    ∀ (i : Nat) (data : List RawScene) (sc : VideoScene),
      sc ∈ planScenesAux mode freshScene freshShot i data →
      ∃ i' raw, sc = initSceneFromRaw mode (freshScene i') (freshShot i') raw := by
  intro i data
  induction data generalizing i with
  | nil => intro sc hsc; simp [planScenesAux] at hsc
  | cons a rest ih =>
    intro sc hsc
    simp only [planScenesAux, List.mem_cons] at hsc
    rcases hsc with h | h
    · exact ⟨i, a, h⟩
    · exact ih (i + 1) sc h

/-- C5 -- planScenes initializes every produced shot with both statuses
Idle, no imageUrl, no videoUrl, and useNextAsEndFrame true exactly when
the video mode is cinematic; and every scene or shot whose upstream id is
not truthy is assigned the generated identifier (truthy upstream ids are
kept). -/
theorem c5_plan_initialization (mode : VideoMode) (freshScene : Nat → String)
    (freshShot : Nat → Nat → String) (data : List RawScene) :
    (∀ sc ∈ planScenes mode freshScene freshShot data, ∀ s ∈ sc.shots,
      s.imageStatus = GenerationStatus.idle ∧
      s.videoStatus = GenerationStatus.idle ∧
      s.imageUrl = none ∧ s.videoUrl = none ∧
      (s.useNextAsEndFrame = true ↔ mode = VideoMode.cinematic)) ∧
    (∀ i raw, data[i]? = some raw →
      ∃ sc, (planScenes mode freshScene freshShot data)[i]? = some sc ∧
        sc.id = jsOrFresh raw.id (freshScene i) ∧
        (jsTruthy raw.id = false → sc.id = freshScene i) ∧
        (∀ j rshot, raw.shots[j]? = some rshot →
          ∃ s, sc.shots[j]? = some s ∧
            s.id = jsOrFresh rshot.id (freshShot i j) ∧
            (jsTruthy rshot.id = false → s.id = freshShot i j))) := by
  constructor
  · intro sc hsc s hs
    obtain ⟨i', raw, rfl⟩ := planScenesAux_mem mode freshScene freshShot 0 data sc hsc
    obtain ⟨j', r, rfl⟩ := initShots_mem mode (freshShot i') 0 raw.shots s hs
    refine ⟨rfl, rfl, rfl, rfl, ?_⟩
    simp [initShotFromRaw]
  · intro i raw hraw
    have h := planScenesAux_getElem? mode freshScene freshShot 0 i data raw hraw
    rw [Nat.zero_add] at h
    refine ⟨_, h, rfl, ?_, ?_⟩
    · intro hfalse
      cases hid : raw.id with
      | none => simp [initSceneFromRaw, jsOrFresh, hid]
      | some v =>
        rw [hid] at hfalse
        simp only [jsTruthy] at hfalse
        have hv : v.isEmpty = true := by simpa using hfalse
        simp [initSceneFromRaw, jsOrFresh, hid, hv]
    · intro j rshot hrs
      have hj := initShots_getElem? mode (freshShot i) 0 j raw.shots rshot hrs
      rw [Nat.zero_add] at hj
      refine ⟨_, hj, rfl, ?_⟩
      intro hfalse
      cases hid : rshot.id with
      | none => simp [initShotFromRaw, jsOrFresh, hid]
      | some v =>
        rw [hid] at hfalse
        simp only [jsTruthy] at hfalse
        have hv : v.isEmpty = true := by simpa using hfalse
        simp [initShotFromRaw, jsOrFresh, hid, hv]

def c5RawScene : RawScene :=
  { id := none, sectionLabel := "Chorus", startTime := "00:10",
    endTime := "00:20", lyrics := "l2", narrativeDescription := "n2",
    shots := [{ id := some "keep", duration := 3, visualPrompt := "v",
                motionPrompt := "m" },
              { id := none, duration := 4, visualPrompt := "v2",
                motionPrompt := "m2" }] }

def c5Raw : List RawScene := [c5RawScene]

/-- Witness for C5 on a concrete upstream response: one scene without an
id, one shot keeping its id and one shot without an id. -/
theorem c5_witness :
    (∀ sc ∈ planScenes VideoMode.cinematic (fun _ => "freshScene")
        (fun _ _ => "freshShot") c5Raw, ∀ s ∈ sc.shots,
      s.imageStatus = GenerationStatus.idle ∧
      s.videoStatus = GenerationStatus.idle ∧
      s.imageUrl = none ∧ s.videoUrl = none ∧
      (s.useNextAsEndFrame = true ↔ VideoMode.cinematic = VideoMode.cinematic)) ∧
    (∃ (sc : VideoScene), (planScenes VideoMode.cinematic (fun _ => "freshScene")
        (fun _ _ => "freshShot") c5Raw)[0]? = some sc ∧
      sc.id = jsOrFresh c5RawScene.id "freshScene" ∧
      (jsTruthy c5RawScene.id = false → sc.id = "freshScene") ∧
      (∀ (j : Nat) (rshot : RawShot), c5RawScene.shots[j]? = some rshot →
        ∃ (s : VideoShot), sc.shots[j]? = some s ∧
          s.id = jsOrFresh rshot.id "freshShot" ∧
          (jsTruthy rshot.id = false → s.id = "freshShot"))) := by
  have h := c5_plan_initialization VideoMode.cinematic (fun _ => "freshScene")
    (fun _ _ => "freshShot") c5Raw
  exact ⟨h.1, h.2 0 c5RawScene (by decide)⟩

/-- updateShot from src/unnamed/part_001 lines 118-129: whole-shot merge
keyed by (scene id, shot id); every other scene and shot is returned
unchanged.  The partial `updates` object of each call site is modelled by
the concrete record-update function f. -/
def updateShotF (sceneId shotId : String) (f : VideoShot → VideoShot)
    (scenes : List VideoScene) : List VideoScene :=
  scenes.map (fun sc =>
    if sc.id == sceneId then
      { sc with shots := sc.shots.map (fun s => if s.id == shotId then f s else s) }
    else sc)

/-- The App component state relevant to the claims: the scene collection
and the project-level error banner (src/unnamed/part_001 lines 19-29). -/
structure AppState where
  scenes : List VideoScene
  projectError : Option String
deriving DecidableEq, Repr

def initialState : AppState := { scenes := [], projectError := none }

/-- handleRegenerateStructure success (src/unnamed/part_001 lines 95-111):
replace the scene collection with the planScenes result, error cleared. -/
def planStep (mode : VideoMode) (freshScene : Nat → String)
    (freshShot : Nat → Nat → String) (data : List RawScene)
    (_st : AppState) : AppState :=
  { scenes := planScenes mode freshScene freshShot data, projectError := none }

/-- handleGenerateImage dispatch (line 161): imageStatus Loading, shot
error cleared. -/
def imageDispatchStep (scid shid : String) (st : AppState) : AppState :=
  { scenes := updateShotF scid shid
      (fun s => { s with imageStatus := GenerationStatus.loading, error := none })
      st.scenes,
    projectError := st.projectError }

/-- handleGenerateImage success (line 178): imageUrl committed together
with imageStatus Success. -/
def imageSuccessStep (scid shid url : String) (st : AppState) : AppState :=
  { scenes := updateShotF scid shid
      (fun s => { s with imageUrl := some url,
                         imageStatus := GenerationStatus.success })
      st.scenes,
    projectError := st.projectError }

/-- handleGenerateImage catch branch (lines 179-183): imageStatus Error on
the target shot, project-level error message surfaced. -/
def imageFailureStep (scid shid : String) (st : AppState) : AppState :=
  { scenes := updateShotF scid shid
      (fun s => { s with imageStatus := GenerationStatus.error })
      st.scenes,
    projectError := some ("Image generation failed for shot " ++ shid) }

/-- handleGenerateVideo dispatch (line 194). -/
def videoDispatchStep (scid shid : String) (st : AppState) : AppState :=
  { scenes := updateShotF scid shid
      (fun s => { s with videoStatus := GenerationStatus.loading, error := none })
      st.scenes,
    projectError := st.projectError }

/-- handleGenerateVideo success (line 207). -/
def videoSuccessStep (scid shid url : String) (st : AppState) : AppState :=
  { scenes := updateShotF scid shid
      (fun s => { s with videoUrl := some url,
                         videoStatus := GenerationStatus.success })
      st.scenes,
    projectError := st.projectError }

/-- handleGenerateVideo catch, credential branch (lines 210-214). -/
def videoFailureAuthStep (scid shid : String) (st : AppState) : AppState :=
  { scenes := updateShotF scid shid
      (fun s => { s with videoStatus := GenerationStatus.error })
      st.scenes,
    projectError := some "Key verification lost. Please try again." }

/-- handleGenerateVideo catch, generic branch (lines 215-218). -/
def videoFailureGenericStep (scid shid msg : String) (st : AppState) : AppState :=
  { scenes := updateShotF scid shid
      (fun s => { s with videoStatus := GenerationStatus.error })
      st.scenes,
    projectError := some ("Video generation failed: " ++ msg) }

/-- Storyboard.tsx user edits (lines 232-256): visual prompt, motion
prompt, and the Morph to Next Shot checkbox. -/
def editVisualPromptStep (scid shid txt : String) (st : AppState) : AppState :=
  { scenes := updateShotF scid shid (fun s => { s with visualPrompt := txt })
      st.scenes,
    projectError := st.projectError }

def editMotionPromptStep (scid shid txt : String) (st : AppState) : AppState :=
  { scenes := updateShotF scid shid (fun s => { s with motionPrompt := txt })
      st.scenes,
    projectError := st.projectError }

def toggleUseNextStep (scid shid : String) (b : Bool) (st : AppState) : AppState :=
  { scenes := updateShotF scid shid (fun s => { s with useNextAsEndFrame := b })
      st.scenes,
    projectError := st.projectError }

/-- Error banner dismissal (src/unnamed/part_001 line 324). -/
def dismissErrorStep (st : AppState) : AppState :=
  { scenes := st.scenes, projectError := none }

/-- States reachable from the empty project by plan generation, the
image/video generation transitions, user shot edits, and error
dismissal. -/
inductive Reachable : AppState → Prop
  | init : Reachable initialState
  | plan (mode : VideoMode) (fS : Nat → String) (fSh : Nat → Nat → String)
      (data : List RawScene) (st : AppState) :
      Reachable st → Reachable (planStep mode fS fSh data st)
  | imageDispatch (scid shid : String) (st : AppState) :
      Reachable st → Reachable (imageDispatchStep scid shid st)
  | imageSuccess (scid shid url : String) (st : AppState) :
      Reachable st → Reachable (imageSuccessStep scid shid url st)
  | imageFailure (scid shid : String) (st : AppState) :
      Reachable st → Reachable (imageFailureStep scid shid st)
  | videoDispatch (scid shid : String) (st : AppState) :
      Reachable st → Reachable (videoDispatchStep scid shid st)
  | videoSuccess (scid shid url : String) (st : AppState) :
      Reachable st → Reachable (videoSuccessStep scid shid url st)
  | videoFailureAuth (scid shid : String) (st : AppState) :
      Reachable st → Reachable (videoFailureAuthStep scid shid st)
  | videoFailureGeneric (scid shid msg : String) (st : AppState) :
      Reachable st → Reachable (videoFailureGenericStep scid shid msg st)
  | editVisual (scid shid txt : String) (st : AppState) :
      Reachable st → Reachable (editVisualPromptStep scid shid txt st)
  | editMotion (scid shid txt : String) (st : AppState) :
      Reachable st → Reachable (editMotionPromptStep scid shid txt st)
  | toggleUseNext (scid shid : String) (b : Bool) (st : AppState) :
      Reachable st → Reachable (toggleUseNextStep scid shid b st)
  | dismissError (st : AppState) :
      Reachable st → Reachable (dismissErrorStep st)

/-- The URL/status invariant of one shot: Success implies the
corresponding URL is set. -/
def shotOk (s : VideoShot) : Prop :=
  (s.imageStatus = GenerationStatus.success → s.imageUrl.isSome = true) ∧
  (s.videoStatus = GenerationStatus.success → s.videoUrl.isSome = true)

lemma updateShotF_shotOk (scid shid : String) (f : VideoShot → VideoShot)
    (hf : ∀ s, shotOk s → shotOk (f s)) (scenes : List VideoScene)
    (h : ∀ sc ∈ scenes, ∀ s ∈ sc.shots, shotOk s) :
    ∀ sc ∈ updateShotF scid shid f scenes, ∀ s ∈ sc.shots, shotOk s := by
  intro sc hsc s hs
  rw [updateShotF] at hsc
  obtain ⟨sc0, hsc0, hmap⟩ := List.mem_map.mp hsc
  by_cases hid : (sc0.id == scid) = true
  · rw [if_pos hid] at hmap
    subst hmap
    simp only [List.mem_map] at hs
    obtain ⟨s0, hs0, hsmap⟩ := hs
    by_cases hsid : (s0.id == shid) = true
    · rw [if_pos hsid] at hsmap
      subst hsmap
      exact hf s0 (h sc0 hsc0 s0 hs0)
    · rw [if_neg hsid] at hsmap
      subst hsmap
      exact h sc0 hsc0 s0 hs0
  · rw [if_neg hid] at hmap
    subst hmap
    exact h sc0 hsc0 s hs

lemma planScenes_shotOk (mode : VideoMode) (fS : Nat → String)
    (fSh : Nat → Nat → String) (data : List RawScene) :
    ∀ sc ∈ planScenes mode fS fSh data, ∀ s ∈ sc.shots, shotOk s := by
  intro sc hsc s hs
  obtain ⟨i', raw, rfl⟩ := planScenesAux_mem mode fS fSh 0 data sc hsc
  obtain ⟨j', r, rfl⟩ := initShots_mem mode (fSh i') 0 raw.shots s hs
  exact ⟨by simp [initShotFromRaw], by simp [initShotFromRaw]⟩

/-- C8 -- in every state reachable by the modelled operations, every shot
satisfies: imageStatus Success implies imageUrl set, and videoStatus
Success implies videoUrl set. -/
theorem c8_success_implies_url (st : AppState) (h : Reachable st) :
    ∀ sc ∈ st.scenes, ∀ s ∈ sc.shots, shotOk s := by
  induction h with
  | init => intro sc hsc; simp [initialState] at hsc
  | plan mode fS fSh data st _ _ =>
      exact planScenes_shotOk mode fS fSh data
  | imageDispatch scid shid st _ ih =>
      refine updateShotF_shotOk scid shid _ ?_ st.scenes ih
      intro s hs
      exact ⟨by simp, hs.2⟩
  | imageSuccess scid shid url st _ ih =>
      refine updateShotF_shotOk scid shid _ ?_ st.scenes ih
      intro s hs
      exact ⟨by simp, hs.2⟩
  | imageFailure scid shid st _ ih =>
      refine updateShotF_shotOk scid shid _ ?_ st.scenes ih
      intro s hs
      exact ⟨by simp, hs.2⟩
  | videoDispatch scid shid st _ ih =>
      refine updateShotF_shotOk scid shid _ ?_ st.scenes ih
      intro s hs
      exact ⟨hs.1, by simp⟩
  | videoSuccess scid shid url st _ ih =>
      refine updateShotF_shotOk scid shid _ ?_ st.scenes ih
      intro s hs
      exact ⟨hs.1, by simp⟩
  | videoFailureAuth scid shid st _ ih =>
      refine updateShotF_shotOk scid shid _ ?_ st.scenes ih
      intro s hs
      exact ⟨hs.1, by simp⟩
  | videoFailureGeneric scid shid msg st _ ih =>
      refine updateShotF_shotOk scid shid _ ?_ st.scenes ih
      intro s hs
      exact ⟨hs.1, by simp⟩
  | editVisual scid shid txt st _ ih =>
      refine updateShotF_shotOk scid shid _ ?_ st.scenes ih
      intro s hs
      exact ⟨hs.1, hs.2⟩
  | editMotion scid shid txt st _ ih =>
      refine updateShotF_shotOk scid shid _ ?_ st.scenes ih
      intro s hs
      exact ⟨hs.1, hs.2⟩
  | toggleUseNext scid shid b st _ ih =>
      refine updateShotF_shotOk scid shid _ ?_ st.scenes ih
      intro s hs
      exact ⟨hs.1, hs.2⟩
  | dismissError st _ ih =>
      exact ih

def c8WShot : VideoShot :=
  { id := "keep", duration := 3, visualPrompt := "v",
    motionPrompt := "m", imageUrl := none,
    imageStatus := GenerationStatus.idle, videoUrl := none,
    videoStatus := GenerationStatus.idle,
    useNextAsEndFrame := false, error := none }

def c8WScene : VideoScene :=
  { id := "freshScene", sectionLabel := "Chorus", startTime := "00:10",
    endTime := "00:20", lyrics := "l2", narrativeDescription := "n2",
    shots := [c8WShot,
              { id := "freshShot", duration := 4, visualPrompt := "v2",
                motionPrompt := "m2", imageUrl := none,
                imageStatus := GenerationStatus.idle, videoUrl := none,
                videoStatus := GenerationStatus.idle,
                useNextAsEndFrame := false, error := none }] }

/-- Witness for C8 at a concrete reachable state (a freshly planned
project). -/
theorem c8_witness : shotOk c8WShot :=
  c8_success_implies_url
    (planStep VideoMode.montage (fun _ => "freshScene") (fun _ _ => "freshShot")
      c5Raw initialState)
    (Reachable.plan _ _ _ _ _ Reachable.init)
    c8WScene (by decide) c8WShot (by decide)

/-- `isGenerating` from Storyboard.tsx line 80: an image or video request
is in flight for the shot. -/
def isGenerating (s : VideoShot) : Bool :=
  decide (s.imageStatus = GenerationStatus.loading)
    || decide (s.videoStatus = GenerationStatus.loading)

/-- The Generate Video button (Storyboard.tsx lines 269-275) is enabled
iff the shot has a truthy imageUrl and nothing is generating:
`disabled={!shot.imageUrl || isGenerating}`. -/
def generateVideoButtonEnabled (s : VideoShot) : Bool :=
  jsTruthy s.imageUrl && !(isGenerating s)

/-- The handleGenerateVideo entry guard (src/unnamed/part_001 line 188):
`if (!shot || !shot.imageUrl) return;` -- dispatch proceeds iff the shot
exists and its imageUrl is truthy. -/
def videoDispatchGuard : Option VideoShot → Bool
  | none => false
  | some s => jsTruthy s.imageUrl

def c6RawScene : RawScene :=
  { id := some "sc1", sectionLabel := "Intro", startTime := "00:00",
    endTime := "00:05", lyrics := "l", narrativeDescription := "n",
    shots := [{ id := some "sh1", duration := 3, visualPrompt := "v",
                motionPrompt := "m" }] }

/-- The state after: plan, image success, image regeneration dispatch,
image regeneration failure.  The shot keeps its stale imageUrl while
imageStatus is Error. -/
def c6BadState : AppState :=
  imageFailureStep "sc1" "sh1"
    (imageDispatchStep "sc1" "sh1"
      (imageSuccessStep "sc1" "sh1" "data:image/png;base64,AAA"
        (planStep VideoMode.montage (fun _ => "f1") (fun _ _ => "f2")
          [c6RawScene] initialState)))

def c6BadShot : VideoShot :=
  { id := "sh1", duration := 3, visualPrompt := "v", motionPrompt := "m",
    imageUrl := some "data:image/png;base64,AAA",
    imageStatus := GenerationStatus.error,
    videoUrl := none, videoStatus := GenerationStatus.idle,
    useNextAsEndFrame := false, error := none }

/-- C6 counterexample -- a reachable shot whose imageStatus is Error but
whose stale imageUrl from a prior success is still set: both the UI
button and the orchestrator guard allow video generation, so the claim
that dispatch is refused whenever imageStatus is not Success is false. -/
theorem c6_counterexample :
    Reachable c6BadState ∧
    allShots c6BadState.scenes = [c6BadShot] ∧
    c6BadShot.imageStatus ≠ GenerationStatus.success ∧
    videoDispatchGuard (some c6BadShot) = true ∧
    generateVideoButtonEnabled c6BadShot = true := by
  refine ⟨?_, by decide, by decide, by decide, by decide⟩
  exact Reachable.imageFailure _ _ _
    (Reachable.imageDispatch _ _ _
      (Reachable.imageSuccess _ _ _ _
        (Reachable.plan _ _ _ _ _ Reachable.init)))

/-- C6 amended -- both interface gates test imageUrl presence, not
imageStatus: video generation is refused (button disabled, dispatch
returns early) whenever the shot has no truthy imageUrl, and refused by
the orchestrator when the shot is missing; a shot with a stale imageUrl
can still dispatch even when its imageStatus is Error. -/
theorem c6_amended_gate_on_imageUrl (s : VideoShot)
    (h : jsTruthy s.imageUrl = false) :
    videoDispatchGuard (some s) = false ∧
    generateVideoButtonEnabled s = false ∧
    videoDispatchGuard none = false := by
  refine ⟨?_, ?_, rfl⟩
  · simp [videoDispatchGuard, h]
  · simp [generateVideoButtonEnabled, h]

/-- Witness for the amended C6 at a concrete shot without an image. -/
theorem c6_amended_witness :
    videoDispatchGuard (some (mkShot "nw")) = false ∧
    generateVideoButtonEnabled (mkShot "nw") = false ∧
    videoDispatchGuard none = false :=
  c6_amended_gate_on_imageUrl (mkShot "nw") (by decide)

/-- C7 -- after a failed image generation (imageFailureStep) the targeted
shot (matched by scene id and shot id) keeps its imageUrl exactly as it
was (unset, or the prior successful value), gets imageStatus Error with
its other fields untouched, a non-empty error message is surfaced at the
project level, and every non-matching shot in every scene is completely
unchanged. -/
theorem c7_image_failure_localized (st : AppState) (sceneId shotId : String) :
    (∀ (i : Nat) (sc : VideoScene), st.scenes[i]? = some sc →
      ∃ (sc2 : VideoScene), (imageFailureStep sceneId shotId st).scenes[i]? = some sc2 ∧
        sc2.id = sc.id ∧
        ∀ (j : Nat) (s : VideoShot), sc.shots[j]? = some s →
          ∃ (s2 : VideoShot), sc2.shots[j]? = some s2 ∧
            ((sc.id = sceneId ∧ s.id = shotId) →
              s2 = { s with imageStatus := GenerationStatus.error } ∧
              s2.imageUrl = s.imageUrl ∧
              s2.imageStatus = GenerationStatus.error ∧
              s2.videoStatus = s.videoStatus ∧ s2.videoUrl = s.videoUrl) ∧
            (¬(sc.id = sceneId ∧ s.id = shotId) → s2 = s)) ∧
    (∃ msg, (imageFailureStep sceneId shotId st).projectError = some msg ∧
      msg ≠ "") := by
  constructor
  · intro i sc hsc
    have hmap : (imageFailureStep sceneId shotId st).scenes[i]? =
        (st.scenes[i]?).map (fun sc =>
          if sc.id == sceneId then
            { sc with shots := sc.shots.map (fun s =>
                if s.id == shotId then
                  { s with imageStatus := GenerationStatus.error }
                else s) }
          else sc) := by
      simp [imageFailureStep, updateShotF]
    by_cases hid : sc.id = sceneId
    · refine ⟨{ sc with shots := sc.shots.map (fun s =>
          if s.id == shotId then { s with imageStatus := GenerationStatus.error }
          else s) }, ?_, rfl, ?_⟩
      · rw [hmap, hsc]
        simp [hid]
      · intro j s hs
        by_cases hsid : s.id = shotId
        · refine ⟨{ s with imageStatus := GenerationStatus.error }, ?_, ?_, ?_⟩
          · show (sc.shots.map _)[j]? = _
            rw [List.getElem?_map, hs]
            simp [hsid]
          · intro _
            exact ⟨rfl, rfl, rfl, rfl, rfl⟩
          · intro hcon
            exact absurd ⟨hid, hsid⟩ hcon
        · refine ⟨s, ?_, ?_, fun _ => rfl⟩
          · show (sc.shots.map _)[j]? = _
            rw [List.getElem?_map, hs]
            simp [hsid]
          · intro hcon
            exact absurd hcon.2 hsid
    · refine ⟨sc, ?_, rfl, ?_⟩
      · rw [hmap, hsc]
        simp [hid]
      · intro j s hs
        refine ⟨s, hs, ?_, fun _ => rfl⟩
        intro hcon
        exact absurd hcon.1 hid
  · refine ⟨"Image generation failed for shot " ++ shotId, rfl, ?_⟩
    intro h
    have hlen := congrArg String.length h
    rw [String.length_append] at hlen
    have h33 : ("Image generation failed for shot ").length = 33 := by decide
    simp [h33] at hlen

def c7Shot : VideoShot :=
  { mkShot "x1" with imageUrl := some "data:image/png;base64,OLD",
                     imageStatus := GenerationStatus.success }
def c7St : AppState :=
  { scenes := [mkScene "scX" [c7Shot]], projectError := none }

/-- Witness for C7 at a concrete one-shot state. -/
theorem c7_witness :
    (∃ (sc2 : VideoScene), (imageFailureStep "scX" "x1" c7St).scenes[0]? = some sc2 ∧
      sc2.id = (mkScene "scX" [c7Shot]).id ∧
      ∀ (j : Nat) (s : VideoShot), (mkScene "scX" [c7Shot]).shots[j]? = some s →
        ∃ (s2 : VideoShot), sc2.shots[j]? = some s2 ∧
          (((mkScene "scX" [c7Shot]).id = "scX" ∧ s.id = "x1") →
            s2 = { s with imageStatus := GenerationStatus.error } ∧
            s2.imageUrl = s.imageUrl ∧
            s2.imageStatus = GenerationStatus.error ∧
            s2.videoStatus = s.videoStatus ∧ s2.videoUrl = s.videoUrl) ∧
          (¬((mkScene "scX" [c7Shot]).id = "scX" ∧ s.id = "x1") → s2 = s)) ∧
    (∃ msg, (imageFailureStep "scX" "x1" c7St).projectError = some msg ∧
      msg ≠ "") :=
  ⟨(c7_image_failure_localized c7St "scX" "x1").1 0 (mkScene "scX" [c7Shot]) rfl,
   (c7_image_failure_localized c7St "scX" "x1").2⟩

/-- Char-list matching: p occurs at the head of l. -/
def matchAt : List Char → List Char → Bool
  | [], _ => true
  | _ :: _, [] => false
  | c :: cs, d :: ds => c == d && matchAt cs ds

/-- Char-list matching: p occurs somewhere in l. -/
def hasSubList (p : List Char) : List Char → Bool
  | [] => p.isEmpty
  | c :: cs => matchAt p (c :: cs) || hasSubList p cs

/-- JS String.prototype.includes: the pattern occurs as a contiguous
substring. -/
def strContains (s pat : String) : Bool :=
  hasSubList pat.toList s.toList

/-- The credential-expiry signature test of handleGenerateVideo
(src/unnamed/part_001 line 210):
`err.message?.includes('Requested entity was not found') || err.message?.includes('404')`.
A missing message (none) fails the test. -/
def authExpirySignature : Option String → Bool
  | none => false
  | some msg => strContains msg "Requested entity was not found"
      || strContains msg "404"

/-- JS template interpolation of a possibly-undefined value. -/
def jsStr : Option String → String
  | none => "undefined"
  | some s => s

/-- The ordered effects of the handleGenerateVideo catch branch
(src/unnamed/part_001 lines 208-219). -/
inductive VideoFailEffect
  | setApiKeyVerified (b : Bool)
  | openSelectKey
  | markShotVideoError (sceneId shotId : String)
  | setProjectError (msg : String)
deriving DecidableEq, Repr

/-- The catch branch of handleGenerateVideo: on the credential-expiry
signature, drop key verification, open the key-selection flow, mark the
shot videoStatus Error, then surface the key message; otherwise mark the
shot videoStatus Error and surface the generic message. -/
def videoCatchEffects (sceneId shotId : String) (m : Option String) :
    List VideoFailEffect :=
  if authExpirySignature m then
    [VideoFailEffect.setApiKeyVerified false,
     VideoFailEffect.openSelectKey,
     VideoFailEffect.markShotVideoError sceneId shotId,
     VideoFailEffect.setProjectError "Key verification lost. Please try again."]
  else
    [VideoFailEffect.markShotVideoError sceneId shotId,
     VideoFailEffect.setProjectError ("Video generation failed: " ++ jsStr m)]

/-- C9 -- a video-generation failure carrying the entity-not-found
credential-expiry signature triggers the re-authorization flow
(openSelectKey) strictly before the error is reported, and still marks
the shot videoStatus Error; every other failure takes the generic branch
-- shot marked Error plus a surfaced project-level message -- with no
re-authorization effect at all. -/
theorem c9_auth_expiry_branch (sceneId shotId : String) (m : Option String) :
    (authExpirySignature m = true →
      ∃ (i j : Nat), i < j ∧
        (videoCatchEffects sceneId shotId m)[i]? =
          some VideoFailEffect.openSelectKey ∧
        (videoCatchEffects sceneId shotId m)[j]? =
          some (VideoFailEffect.setProjectError
            "Key verification lost. Please try again.") ∧
        VideoFailEffect.markShotVideoError sceneId shotId
          ∈ videoCatchEffects sceneId shotId m) ∧
    (authExpirySignature m = false →
      videoCatchEffects sceneId shotId m =
        [VideoFailEffect.markShotVideoError sceneId shotId,
         VideoFailEffect.setProjectError ("Video generation failed: " ++ jsStr m)] ∧
      VideoFailEffect.openSelectKey ∉ videoCatchEffects sceneId shotId m) := by
  constructor
  · intro hsig
    refine ⟨1, 3, by omega, ?_, ?_, ?_⟩ <;> simp [videoCatchEffects, hsig]
  · intro hsig
    refine ⟨by simp [videoCatchEffects, hsig], ?_⟩
    simp [videoCatchEffects, hsig]

/-- Witness for C9: a message carrying the signature and one without. -/
theorem c9_witness :
    (∃ (i j : Nat), i < j ∧
      (videoCatchEffects "scW" "shW"
        (some "Requested entity was not found."))[i]? =
          some VideoFailEffect.openSelectKey ∧
      (videoCatchEffects "scW" "shW"
        (some "Requested entity was not found."))[j]? =
          some (VideoFailEffect.setProjectError
            "Key verification lost. Please try again.") ∧
      VideoFailEffect.markShotVideoError "scW" "shW"
        ∈ videoCatchEffects "scW" "shW"
            (some "Requested entity was not found.")) ∧
    (videoCatchEffects "scW" "shW" (some "quota exceeded") =
        [VideoFailEffect.markShotVideoError "scW" "shW",
         VideoFailEffect.setProjectError
           ("Video generation failed: " ++ jsStr (some "quota exceeded"))] ∧
      VideoFailEffect.openSelectKey
        ∉ videoCatchEffects "scW" "shW" (some "quota exceeded")) :=
  ⟨(c9_auth_expiry_branch "scW" "shW"
      (some "Requested entity was not found.")).1 (by decide),
   (c9_auth_expiry_branch "scW" "shW" (some "quota exceeded")).2 (by decide)⟩
